import Mathlib

/-!
Verification of the mask-generation and transform module
(`models/transform.py` of Copy-and-Paste Networks for Deep Video Inpainting).

The Python code is shallowly embedded here.  Numeric values (Python floats,
numpy float64 arrays) are modelled as rationals; every call to the process-wide
random source (`np.random.*`, `random.*`) is modelled by an explicit *realized
draw* passed in through a draw structure, and distribution support becomes a
hypothesis of the corresponding theorem (`U(a,b)` draws carry `a ≤ r ≤ b`,
normal draws are unconstrained).  Trigonometric functions are passed in as
function parameters `cosFn sinFn : ℚ → ℚ`; concrete instantiations in
counterexamples use angles where real `cos`/`sin` take rational values
(`cos 0 = 1`, `sin 0 = 0`).  Fallible Python code (raised exceptions) is
embedded with `Except String`.
-/

namespace Transform

/-- Python `int()` applied to a float: truncation toward zero. -/
def pyInt (q : ℚ) : Int := if 0 ≤ q then ⌊q⌋ else ⌈q⌉

/-- `np.clip(x, lo, hi) = np.minimum(np.maximum(x, lo), hi)`. -/
def npClip (x lo hi : ℚ) : ℚ := min (max x lo) hi

/-- `np.clip` on integer scalars (used by the lattice random walk). -/
def npClipInt (x lo hi : Int) : Int := min (max x lo) hi

/-- Embedding of `random_accelerate(velocity, maxAcceleration, dist)`
(transform.py lines 161-174).  `draw1`/`draw2` are the realized values of the
two random samples the chosen branch draws: for `'uniform'` they are the
realized `np.random.uniform(-d_speed, d_speed)` / `uniform(-d_angle, d_angle)`
samples, for `'guassian'` (spelling as in the source) the realized
`np.random.normal(0, d_speed / 2)` / `normal(0, d_angle / 2)` samples.  The
speed/angle bounds of `maxAcceleration` constrain the uniform draws only
through theorem hypotheses; the function body adds the realized draw, exactly
as the source does, with no clamping. -/
def random_accelerate (velocity : ℚ × ℚ) (maxAcceleration : ℚ × ℚ)
    (dist : String) (draw1 draw2 : ℚ) : Except String (ℚ × ℚ) :=
  let speed := velocity.1
  let angle := velocity.2
  let _d_speed := maxAcceleration.1
  let _d_angle := maxAcceleration.2
  if dist = "uniform" then
    Except.ok (speed + draw1, angle + draw2)
  else if dist = "guassian" then
    Except.ok (speed + draw1, angle + draw2)
  else
    Except.error ("Distribution type " ++ dist ++ " is not supported.")

/-- Embedding of `get_random_velocity(max_speed, dist)` (transform.py lines
243-252).  `rUnif` is the *raw* uniform sample in `[0,1)` used by the
`'uniform'` branch: the source calls `np.random.uniform(max_speed)` with a
single positional argument, which numpy reads as `low=max_speed, high=1.0`,
returning `low + (high - low) * r`.  `normalDraw` is the realized
`np.random.normal(0, max_speed / 2)` sample of the `'guassian'` branch, and
`angleDraw` the realized `np.random.uniform(0, 2 * np.pi)` sample. -/
def get_random_velocity (max_speed : ℚ) (dist : String)
    (rUnif normalDraw angleDraw : ℚ) : Except String (ℚ × ℚ) :=
  if dist = "uniform" then
    Except.ok (max_speed + (1 - max_speed) * rUnif, angleDraw)
  else if dist = "guassian" then
    Except.ok (|normalDraw|, angleDraw)
  else
    Except.error ("Distribution type " ++ dist ++ " is not supported.")

/-- Realized random draws consumed by one call to
`random_move_control_points` (transform.py lines 177-201). -/
structure MoveDraws where
  /-- realized `np.random.normal(0, d_speed / 2)` of the `'guassian'`
  acceleration of the whole-line velocity -/
  accelSpeedDraw : ℚ
  /-- realized `np.random.normal(0, d_angle / 2)` -/
  accelAngleDraw : ℚ
  /-- `np.arange(len(Xs))` after `np.random.shuffle`: a permutation of
  `0 .. len(Xs)-1` (a theorem hypothesis where it matters) -/
  perm : List Nat
  /-- realized `np.random.randint(-maxPiontMove, maxPiontMove)` for the X
  jitter at the k-th loop iteration over the chosen indices -/
  jitterX : Nat → Int
  /-- realized randint for the Y jitter at the k-th iteration -/
  jitterY : Nat → Int
  /-- raw uniform sample for the `get_random_velocity` resample (unused: that
  call passes `dist='guassian'`) -/
  resampleR : ℚ
  /-- realized `np.random.normal(0, maxInitSpeed / 2)` of the resample -/
  resampleNormal : ℚ
  /-- realized `np.random.uniform(0, 2 * np.pi)` of the resample -/
  resampleAngle : ℚ

/-- The `for i in chosen` loop of `random_move_control_points` (transform.py
lines 192-198), processing `(k, i)` pairs where `k` is the iteration counter
(indexing the realized jitter draws) and `i` the chosen control-point index:
jitter `new_Xs[i]`/`new_Ys[i]`, flag an escape when the jittered unclamped
point leaves `0..imageWidth` × `0..imageHeight`, then clip the point into
`[boarderGap, dim - boarderGap]`. -/
def movePointsLoop (imageWidth imageHeight boarderGap : ℚ)
    (jx jy : Nat → Int) :
    List (Nat × Nat) → List ℚ × List ℚ × Bool → List ℚ × List ℚ × Bool
  | [], st => st
  | (k, i) :: rest, (xs, ys, flag) =>
    let xi := xs.getD i 0 + ((jx k : Int) : ℚ)
    let yi := ys.getD i 0 + ((jy k : Int) : ℚ)
    let flag' := flag || decide (xi > imageWidth) || decide (xi < 0) ||
      decide (yi > imageHeight) || decide (yi < 0)
    movePointsLoop imageWidth imageHeight boarderGap jx jy rest
      (xs.set i (npClip xi boarderGap (imageWidth - boarderGap)),
       ys.set i (npClip yi boarderGap (imageHeight - boarderGap)), flag')

/-- Embedding of `random_move_control_points(Xs, Ys, imageWidth, imageHeight,
lineVelocity, nMovePointRatio, maxPiontMove, maxLineAcceleration, boarderGap,
maxInitSpeed)` (transform.py lines 177-201).

`new_Xs = Xs.copy()` / `new_Ys = Ys.copy()` are value copies in this pure
embedding (the store-level embedding `random_move_control_points_store` below
makes the heap explicit for the aliasing claim).  The whole line is translated
by `int(speed * cos(angle))` / `int(speed * sin(angle))`, the line velocity is
perturbed through `random_accelerate(..., dist='guassian')` (that branch
always succeeds, so the `Except` fallback is dead code), the chosen indices
are the first `int(len(Xs) * nMovePointRatio)` entries of the shuffled
`np.arange(len(Xs))`, and an escape of any jittered point resamples the line
velocity through `get_random_velocity(maxInitSpeed, dist='guassian')`. -/
def random_move_control_points (Xs Ys : List ℚ)
    (imageWidth imageHeight : ℚ) (lineVelocity : ℚ × ℚ)
    ( nMovePointRatio : ℚ) (maxPiontMove : Int)
    (maxLineAcceleration : ℚ × ℚ) (boarderGap maxInitSpeed : ℚ)
    (cosFn sinFn : ℚ → ℚ) (d : MoveDraws) : List ℚ × List ℚ × (ℚ × ℚ) :=
  let speed := lineVelocity.1
  let angle := lineVelocity.2
  let new_Xs := Xs.map (fun v => v + ((pyInt (speed * cosFn angle) : Int) : ℚ))
  let new_Ys := Ys.map (fun v => v + ((pyInt (speed * sinFn angle) : Int) : ℚ))
  let lineVelocity1 :=
    (random_accelerate lineVelocity maxLineAcceleration "guassian"
      d.accelSpeedDraw d.accelAngleDraw).toOption.getD lineVelocity
  let chosen := d.perm.take (pyInt ((Xs.length : ℚ) * nMovePointRatio)).toNat
  let res := movePointsLoop imageWidth imageHeight boarderGap
    d.jitterX d.jitterY chosen.enum (new_Xs, new_Ys, false)
  let lineVelocity2 :=
    if res.2.2 then
      (get_random_velocity maxInitSpeed "guassian"
        d.resampleR d.resampleNormal d.resampleAngle).toOption.getD
        lineVelocity1
    else lineVelocity1
  (res.1, res.2.1, lineVelocity2)

/-- Realized random draws consumed by one call to
`get_random_stroke_control_points` (transform.py lines 204-240). -/
structure StrokeDraws where
  /-- realized `np.random.randint(imageWidth)` -/
  startX : Int
  /-- realized `np.random.randint(imageHeight)` -/
  startY : Int
  /-- realized `np.random.randint(nVertexBound[0], nVertexBound[1])` -/
  numVertex : Nat
  /-- realized `np.random.uniform(0, 2 * np.pi)` -/
  angle0 : ℚ
  /-- realized `np.random.uniform(0, maxHeadSpeed)` -/
  speed0 : ℚ
  /-- realized `np.random.uniform(-d_speed, d_speed)` of the `'uniform'`
  head acceleration at iteration `i` -/
  accelSpeed : Nat → ℚ
  /-- realized `np.random.uniform(-d_angle, d_angle)` at iteration `i` -/
  accelAngle : Nat → ℚ
  /-- raw uniform sample for the final `get_random_velocity` call (unused:
  that call passes `dist='guassian'`) -/
  velR : ℚ
  /-- realized `np.random.normal(0, maxInitSpeed / 2)` -/
  velNormal : ℚ
  /-- realized `np.random.uniform(0, 2 * np.pi)` -/
  velAngle : ℚ

/-- Embedding of `get_random_stroke_control_points` (transform.py lines
204-240): a correlated random walk of `numVertex` steps from a uniformly
random start point; each step perturbs the head velocity through
`random_accelerate(..., dist='uniform')` (the source's default `dist`), clamps
the speed into `[0, maxHeadSpeed]`, advances by
`speed * (sin(angle), cos(angle))`, and (when `boarderGap` is not `None`)
clamps the new point into `[boarderGap, dim - boarderGap]`.  Returns the
polyline and a whole-line velocity freshly sampled through
`get_random_velocity(maxInitSpeed, dist='guassian')`. -/
def get_random_stroke_control_points (imageWidth imageHeight : ℚ)
    (nVertexBound : Int × Int) (maxHeadSpeed : ℚ)
    (maxHeadAcceleration : ℚ × ℚ) (boarderGap : Option ℚ)
    (maxInitSpeed : ℚ) (cosFn sinFn : ℚ → ℚ) (d : StrokeDraws) :
    List ℚ × List ℚ × (ℚ × ℚ) :=
  let startX : ℚ := (d.startX : ℚ)
  let startY : ℚ := (d.startY : ℚ)
  let step := fun (st : (ℚ × ℚ) × ℚ × ℚ × List ℚ × List ℚ) (i : Nat) =>
    let va := (random_accelerate st.1 maxHeadAcceleration "uniform"
      (d.accelSpeed i) (d.accelAngle i)).toOption.getD st.1
    let speed := npClip va.1 0 maxHeadSpeed
    let angle := va.2
    let nextX := st.2.1 + speed * sinFn angle
    let nextY := st.2.2.1 + speed * cosFn angle
    let clipped := match boarderGap with
      | some gap =>
        (npClip nextX gap (imageWidth - gap), npClip nextY gap (imageHeight - gap))
      | none => (nextX, nextY)
    ((speed, angle), clipped.1, clipped.2,
     st.2.2.2.1 ++ [clipped.1], st.2.2.2.2 ++ [clipped.2])
  let fin := (List.range d.numVertex).foldl step
    ((d.speed0, d.angle0), startX, startY, [startX], [startY])
  let velocity := (get_random_velocity maxInitSpeed "guassian"
    d.velR d.velNormal d.velAngle).toOption.getD (0, 0)
  (fin.2.2.2.1, fin.2.2.2.2, velocity)

/-- The 2D drawing backend (`PIL.ImageDraw`), an external collaborator of the
module: a binary canvas type with line and ellipse rasterization.
`newCanvas w h` models `Image.new(mode='1', size=(w, h), color=0)`,
`drawLine c (x0, y0, x1, y1) fill width` models
`ImageDraw.Draw(c).line((x0, y0, x1, y1), fill=fill, width=width)`, and
`drawEllipse c (l, t, r, b) fill` models
`draw.ellipse((l, t, r, b), fill=fill)`. -/
structure DrawBackend (Canvas : Type) where
  newCanvas : ℚ → ℚ → Canvas
  drawLine : Canvas → ℚ × ℚ × ℚ × ℚ → Int → Int → Canvas
  drawEllipse : Canvas → ℚ × ℚ × ℚ × ℚ → Int → Canvas

/-- Embedding of `draw_mask_by_control_points(mask, Xs, Ys, brushWidth, fill)`
(transform.py lines 255-264): draw a line for every consecutive control-point
pair (`for i in range(1, len(Xs))`), then an ellipse of radius
`brushWidth // 2 - 1` around every control point. -/
def draw_mask_by_control_points {Canvas : Type} (B : DrawBackend Canvas)
    (mask : Canvas) (Xs Ys : List ℚ) (brushWidth : Int) (fill : Int) :
    Canvas :=
  let radius : ℚ := ((Int.fdiv brushWidth 2 - 1 : Int) : ℚ)
  let mask := (List.range' 1 (Xs.length - 1)).foldl
    (fun m i => B.drawLine m
      (Xs.getD (i - 1) 0, Ys.getD (i - 1) 0, Xs.getD i 0, Ys.getD i 0)
      fill brushWidth) mask
  (Xs.zip Ys).foldl
    (fun m p => B.drawEllipse m
      (p.1 - radius, p.2 - radius, p.1 + radius, p.2 + radius) fill) mask

/-- Realized random draws consumed by one call to
`get_video_masks_by_moving_random_stroke`: per-stroke brush widths and stroke
draws, and per frame-iteration/stroke animator draws. -/
structure VideoDraws where
  /-- realized `np.random.randint(brushWidthBound[0], brushWidthBound[1])`
  for stroke `k` -/
  brushWidth : Nat → Int
  /-- draws of the `get_random_stroke_control_points` call for stroke `k` -/
  stroke : Nat → StrokeDraws
  /-- draws of the `random_move_control_points` call at frame iteration `t`
  (0-based, over the `video_len - 1` animated frames) for stroke `j` -/
  move : Nat → Nat → MoveDraws

/-- One stroke state of the builder, as stored in `control_points_set`:
`(Xs, Ys, velocity, brushWidth)`. -/
abbrev StrokeState : Type := List ℚ × List ℚ × (ℚ × ℚ) × Int

/-- Frame 0 of `get_video_masks_by_moving_random_stroke` (transform.py lines
132-143): create a fresh canvas and, for each of the `nStroke` strokes,
sample a brush width, generate its control points, record
`(Xs, Ys, velocity, brushWidth)` and rasterize it with `fill=255`.  No call
to `random_move_control_points` occurs here. -/
def initialFrame {Canvas : Type} (B : DrawBackend Canvas)
    (imageWidth imageHeight : ℚ) (nStroke : Nat) (nVertexBound : Int × Int)
    (maxHeadSpeed : ℚ) (maxHeadAcceleration : ℚ × ℚ)
    (boarderGap maxInitSpeed : ℚ) (cosFn sinFn : ℚ → ℚ) (d : VideoDraws) :
    Canvas × List StrokeState :=
  (List.range nStroke).foldl
    (fun (st : Canvas × List StrokeState) k =>
      let brushWidth := d.brushWidth k
      let cps := get_random_stroke_control_points imageWidth imageHeight
        nVertexBound maxHeadSpeed maxHeadAcceleration (some boarderGap)
        maxInitSpeed cosFn sinFn (d.stroke k)
      let mask := draw_mask_by_control_points B st.1 cps.1 cps.2.1
        brushWidth 255
      (mask, st.2 ++ [(cps.1, cps.2.1, cps.2.2, brushWidth)]))
    (B.newCanvas imageWidth imageHeight, [])

/-- One iteration of the frame loop of the builder (transform.py lines
147-157), at frame iteration `t`: advance every stroke of
`control_points_set` through `random_move_control_points`, then rasterize all
updated strokes onto a fresh canvas and append it to the mask list. -/
def videoFrameStep {Canvas : Type} (B : DrawBackend Canvas)
    (imageWidth imageHeight : ℚ) ( nMovePointRatio : ℚ) (maxPiontMove : Int)
    (maxLineAcceleration : ℚ × ℚ) (boarderGap maxInitSpeed : ℚ)
    (cosFn sinFn : ℚ → ℚ) (d : VideoDraws)
    (st : List Canvas × List StrokeState) (t : Nat) :
    List Canvas × List StrokeState :=
  let cps := st.2.enum.map (fun (ji : Nat × StrokeState) =>
    let moved := random_move_control_points ji.2.1 ji.2.2.1 imageWidth
      imageHeight ji.2.2.2.1 nMovePointRatio maxPiontMove
      maxLineAcceleration boarderGap maxInitSpeed cosFn sinFn
      (d.move t ji.1)
    (moved.1, moved.2.1, moved.2.2, ji.2.2.2.2))
  let mask := cps.foldl
    (fun m (cp : StrokeState) =>
      draw_mask_by_control_points B m cp.1 cp.2.1 cp.2.2.2 255)
    (B.newCanvas imageWidth imageHeight)
  (st.1 ++ [mask], cps)

/-- Embedding of `get_video_masks_by_moving_random_stroke` (transform.py
lines 81-158).  The leading `assert(video_len >= 1)` is embedded as an
`Except.error` returned before any stroke or canvas is created; otherwise the
initial frame is built, and `video_len - 1` further frames are generated by
the frame loop. -/
def get_video_masks_by_moving_random_stroke {Canvas : Type}
    (B : DrawBackend Canvas) (video_len : Int) (imageWidth imageHeight : ℚ)
    (nStroke : Nat) (nVertexBound : Int × Int) (maxHeadSpeed : ℚ)
    (maxHeadAcceleration : ℚ × ℚ) (brushWidthBound : Int × Int)
    (boarderGap : ℚ) ( nMovePointRatio : ℚ) (maxPiontMove : Int)
    (maxLineAcceleration : ℚ × ℚ) (maxInitSpeed : ℚ)
    (cosFn sinFn : ℚ → ℚ) (d : VideoDraws) : Except String (List Canvas) :=
  if video_len ≥ 1 then
    let init := initialFrame B imageWidth imageHeight nStroke nVertexBound
      maxHeadSpeed maxHeadAcceleration boarderGap maxInitSpeed cosFn sinFn d
    let fin := (List.range (video_len - 1).toNat).foldl
      (videoFrameStep B imageWidth imageHeight nMovePointRatio maxPiontMove
        maxLineAcceleration boarderGap maxInitSpeed cosFn sinFn d)
      ([init.1], init.2)
    Except.ok fin.1
  else
    Except.error "AssertionError: video_len >= 1"

/-- A rasterized binary PIL image: dimensions plus a pixel map
`px row col` (values 0 or 255 for the masks of this module, but any `Nat`
pixel value is representable). -/
structure MaskImage where
  width : Nat
  height : Nat
  px : Nat → Nat → Nat

/-- Bin 0 of `mask.histogram()`: the number of pixels whose value is 0. -/
def histogram0 (m : MaskImage) : Nat :=
  ((List.range m.height).map
    (fun y => ((List.range m.width).filter (fun x => m.px y x = 0)).length)).sum

/-- Embedding of `get_masked_ratio(mask)` (transform.py lines 287-294):
`mask.histogram()[0] / np.prod(mask.size)`, with `mask.size = (width,
height)`. -/
def get_masked_ratio (m : MaskImage) : ℚ :=
  (histogram0 m : ℚ) / ((m.width * m.height : Nat) : ℚ)

/-- A PIL frame as consumed by `Stack`: a pixel mode (`'1'`, `'L'`, `'RGB'`,
...), dimensions, and a pixel map `px row col` returning the list of channel
values (a singleton for single-channel modes, three entries for `'RGB'`). -/
structure PILImage where
  mode : String
  height : Nat
  width : Nat
  px : Nat → Nat → List Nat

/-- 2-dimensional numpy array as nested lists (rows of pixel values). -/
abbrev Arr2 : Type := List (List Nat)

/-- 3-dimensional numpy array. -/
abbrev Arr3 : Type := List Arr2

/-- 4-dimensional numpy array. -/
abbrev Arr4 : Type := List Arr3

/-- `np.asarray` of a single-channel PIL image: shape `(height, width)`. -/
def imgToArr2 (img : PILImage) : Arr2 :=
  (List.range img.height).map
    (fun y => (List.range img.width).map (fun x => (img.px y x).getD 0 0))

/-- `np.asarray` of an RGB PIL image: shape `(height, width, 3)`. -/
def imgToArr3 (img : PILImage) : Arr3 :=
  (List.range img.height).map
    (fun y => (List.range img.width).map (fun x => img.px y x))

/-- `np.expand_dims(x, 2)` on a 2-dimensional array: shape `(h, w)` becomes
`(h, w, 1)`. -/
def expandDims2 (a : Arr2) : Arr3 := a.map (fun row => row.map (fun v => [v]))

/-- `arr[:, :, ::-1]` on a 3-dimensional array: reverse the channel axis. -/
def reverseChannels (a : Arr3) : Arr3 := a.map (fun row => row.map List.reverse)

/-- `np.stack(arrs, axis=2)` on a list of equal-shape 3-dimensional arrays of
shape `(h, w, c)`: the new axis is inserted at position 2, giving shape
`(h, w, len(arrs), c)` with `result[i][j][k] = arrs[k][i][j]`. -/
def stackAxis2 (arrs : List Arr3) : Arr4 :=
  let h := (arrs.getD 0 []).length
  let w := ((arrs.getD 0 []).getD 0 []).length
  (List.range h).map (fun i => (List.range w).map
    (fun j => arrs.map (fun a => (a.getD i []).getD j [])))

/-- `img.convert('L')` on a mode-`'1'` image: same single-channel pixel data
(0/255), mode `'L'`. -/
def convertToL (img : PILImage) : PILImage :=
  { img with mode := "L" }

/-- Embedding of `Stack.__call__(self, img_group)` (transform.py lines
45-58), with `self.roll` as the `roll` argument: mode `'1'` frames are
converted to `'L'`; mode `'L'` frames are expanded to `(h, w, 1)` and stacked
along axis 2; mode `'RGB'` frames are stacked along axis 2, with the channel
axis reversed first when `roll` is set; any other mode raises
`NotImplementedError`.  An empty group raises `IndexError` at
`img_group[0]`. -/
def Stack_call (roll : Bool) (img_group : List PILImage) :
    Except String Arr4 :=
  match img_group with
  | [] => Except.error "IndexError: list index out of range"
  | img0 :: _ =>
    let mode := img0.mode
    let conv := if mode = "1" then img_group.map convertToL else img_group
    let mode := if mode = "1" then "L" else mode
    if mode = "L" then
      Except.ok (stackAxis2 (conv.map (fun x => expandDims2 (imgToArr2 x))))
    else if mode = "RGB" then
      if roll then
        Except.ok (stackAxis2 (conv.map (fun x => reverseChannels (imgToArr3 x))))
      else
        Except.ok (stackAxis2 (conv.map imgToArr3))
    else
      Except.error ("NotImplementedError: Image mode " ++ mode)

/-- The shape of a 4-dimensional nested-list array (as reported by
`np.shape` for the rectangular arrays produced by `stackAxis2`). -/
def shape4 (a : Arr4) : Nat × Nat × Nat × Nat :=
  (a.length, (a.getD 0 []).length, ((a.getD 0 []).getD 0 []).length,
   (((a.getD 0 []).getD 0 []).getD 0 []).length)

/-- Realized random draws consumed by one call to `get_random_walk_mask`
(transform.py lines 268-284). -/
structure WalkDraws where
  /-- realized `random.randint(0, imageHeight - 1)` -/
  x0 : Nat
  /-- realized `random.randint(0, imageWidth - 1)` -/
  y0 : Nat
  /-- realized `random.randint(0, len(action_list) - 1)` at step `i` -/
  action : Nat → Nat

/-- `action_list = [[0, 1], [0, -1], [1, 0], [-1, 0]]`. -/
def action_list : List (Int × Int) := [(0, 1), (0, -1), (1, 0), (-1, 0)]

/-- Models the numpy fancy-index assignment
`canvas[np.array(x_list), np.array(y_list)] = 1`.  When `x_list` is the empty
Python list, `np.array(x_list)` has dtype `float64`, and numpy rejects any
non-integer, non-boolean *array* used as an index (numpy's
`test_empty_fancy_index` pins this down: `a[np.array([])]` raises
`IndexError`, unlike the empty-list special case `a[[]]`).  For the nonempty
case the lists hold numpy integers and the assignment writes 1 at every
`(x_i, y_i)` cell. -/
def npFancySetOne (canvas : Arr2) (xs ys : List Nat) : Except String Arr2 :=
  if xs.isEmpty then
    Except.error
      "IndexError: arrays used as indices must be of integer (or boolean) type"
  else
    Except.ok ((xs.zip ys).foldl
      (fun c p => c.set p.1 ((c.getD p.1 []).set p.2 1)) canvas)

/-- Embedding of `get_random_walk_mask(imageWidth, imageHeight, length)`
(transform.py lines 268-284): an all-zero `imageHeight × imageWidth` integer
canvas; `length` steps of a lattice random walk clipped into the canvas,
recording every visited cell; then the fancy assignment marks the visited
cells and `Image.fromarray(canvas * 255).convert('1')` is modelled as the
pixel array `canvas * 255` (the final mode-`'1'` image has the same zero /
nonzero pattern). -/
def get_random_walk_mask (imageWidth imageHeight : Nat)
    (length : Option Nat) (d : WalkDraws) : Except String Arr2 :=
  let canvas : Arr2 := List.replicate imageHeight (List.replicate imageWidth 0)
  let len := match length with
    | none => imageWidth * imageHeight
    | some l => l
  let step := fun (st : Int × Int × List Nat × List Nat) (i : Nat) =>
    let a := action_list.getD (d.action i) (0, 0)
    let x := npClipInt (st.1 + a.1) 0 ((imageHeight : Int) - 1)
    let y := npClipInt (st.2.1 + a.2) 0 ((imageWidth : Int) - 1)
    (x, y, st.2.2.1 ++ [x.toNat], st.2.2.2 ++ [y.toNat])
  let walk := (List.range len).foldl step ((d.x0 : Int), (d.y0 : Int), [], [])
  match npFancySetOne canvas walk.2.2.1 walk.2.2.2 with
  | Except.ok c => Except.ok (c.map (fun row => row.map (· * 255)))
  | Except.error e => Except.error e

/-- A heap of numpy arrays, for the frame-effect analysis of
`random_move_control_points`: array references are indices into the list of
allocated arrays. -/
structure NpStore where
  arrays : List (List ℚ)

/-- Dereference an array reference. -/
def NpStore.read (s : NpStore) (r : Nat) : List ℚ := s.arrays.getD r []

/-- Overwrite the array behind a reference (in-place numpy operations). -/
def NpStore.write (s : NpStore) (r : Nat) (v : List ℚ) : NpStore :=
  ⟨s.arrays.set r v⟩

/-- Allocate a fresh array (e.g. `Xs.copy()`), returning its reference. -/
def NpStore.alloc (s : NpStore) (v : List ℚ) : NpStore × Nat :=
  (⟨s.arrays ++ [v]⟩, s.arrays.length)

/-- The `for i in chosen` loop of `random_move_control_points`, at store
level: each iteration reads and writes the arrays behind `newXsRef` /
`newYsRef` only. -/
def movePointsLoopStore (imageWidth imageHeight boarderGap : ℚ)
    (jx jy : Nat → Int) (newXsRef newYsRef : Nat) :
    List (Nat × Nat) → NpStore × Bool → NpStore × Bool
  | [], st => st
  | (k, i) :: rest, (s, flag) =>
    let xs := s.read newXsRef
    let ys := s.read newYsRef
    let xi := xs.getD i 0 + ((jx k : Int) : ℚ)
    let yi := ys.getD i 0 + ((jy k : Int) : ℚ)
    let flag' := flag || decide (xi > imageWidth) || decide (xi < 0) ||
      decide (yi > imageHeight) || decide (yi < 0)
    let s := s.write newXsRef
      (xs.set i (npClip xi boarderGap (imageWidth - boarderGap)))
    let s := s.write newYsRef
      (ys.set i (npClip yi boarderGap (imageHeight - boarderGap)))
    movePointsLoopStore imageWidth imageHeight boarderGap jx jy
      newXsRef newYsRef rest (s, flag')

/-- Store-level embedding of `random_move_control_points` (transform.py lines
177-201): the input arrays live behind the references `xsRef` / `ysRef`;
`new_Xs = Xs.copy()` / `new_Ys = Ys.copy()` allocate fresh arrays;
`new_Xs += int(...)` and the per-point assignments are in-place writes
through the new references.  Returns the final store, the references of the
returned arrays, and the returned line velocity. -/
def random_move_control_points_store (s0 : NpStore) (xsRef ysRef : Nat)
    (imageWidth imageHeight : ℚ) (lineVelocity : ℚ × ℚ)
    ( nMovePointRatio : ℚ) (maxPiontMove : Int)
    (maxLineAcceleration : ℚ × ℚ) (boarderGap maxInitSpeed : ℚ)
    (cosFn sinFn : ℚ → ℚ) (d : MoveDraws) : NpStore × Nat × Nat × (ℚ × ℚ) :=
  let a1 := s0.alloc (s0.read xsRef)
  let s1 := a1.1
  let newXsRef := a1.2
  let a2 := s1.alloc (s1.read ysRef)
  let s2 := a2.1
  let newYsRef := a2.2
  let speed := lineVelocity.1
  let angle := lineVelocity.2
  let s3 := s2.write newXsRef
    ((s2.read newXsRef).map (fun v => v + ((pyInt (speed * cosFn angle) : Int) : ℚ)))
  let s4 := s3.write newYsRef
    ((s3.read newYsRef).map (fun v => v + ((pyInt (speed * sinFn angle) : Int) : ℚ)))
  let lineVelocity1 :=
    (random_accelerate lineVelocity maxLineAcceleration "guassian"
      d.accelSpeedDraw d.accelAngleDraw).toOption.getD lineVelocity
  let chosen :=
    d.perm.take (pyInt (((s0.read xsRef).length : ℚ) * nMovePointRatio)).toNat
  let res := movePointsLoopStore imageWidth imageHeight boarderGap
    d.jitterX d.jitterY newXsRef newYsRef chosen.enum (s4, false)
  let lineVelocity2 :=
    if res.2 then
      (get_random_velocity maxInitSpeed "guassian"
        d.resampleR d.resampleNormal d.resampleAngle).toOption.getD
        lineVelocity1
    else lineVelocity1
  (res.1, newXsRef, newYsRef, lineVelocity2)

/-- Concrete animator draws for the witness of the amended C1: both points
are chosen (`nMovePointRatio = 1`), with wild jitter draws of ±100. -/
def C1w_d : MoveDraws := ⟨0, 0, [0, 1], fun _ => 100, fun _ => -100, 0, 0, 0⟩

/-- A trivial drawing backend over a unit canvas, used to instantiate the
builder theorems at concrete inputs. -/
def unitBackend : DrawBackend Unit :=
  ⟨fun _ _ => (), fun c _ _ _ => c, fun c _ _ => c⟩

/-- Trivial realized stroke draws for concrete instantiations. -/
def trivialStrokeDraws : StrokeDraws :=
  ⟨0, 0, 1, 0, 0, fun _ => 0, fun _ => 0, 0, 0, 0⟩

/-- Trivial realized animator draws for concrete instantiations. -/
def trivialMoveDraws : MoveDraws :=
  ⟨0, 0, [], fun _ => 0, fun _ => 0, 0, 0, 0⟩

/-- Trivial realized builder draws for concrete instantiations. -/
def trivialVideoDraws : VideoDraws :=
  ⟨fun _ => 30, fun _ => trivialStrokeDraws, fun _ _ => trivialMoveDraws⟩

/-- A 4 × 4 single-channel (mode `'L'`) frame with the given pixel map. -/
def mkL4 (f : Nat → Nat → Nat) : PILImage := ⟨"L", 4, 4, fun y x => [f y x]⟩

/-- A 4 × 4 RGB frame with the given per-pixel channel lists. -/
def mkRGB4 (f : Nat → Nat → List Nat) : PILImage := ⟨"RGB", 4, 4, f⟩

/-- A concrete two-array store for the witness of C10: array 0 holds `[1]`,
array 1 holds `[2]`. -/
def C10w_s : NpStore := ⟨[[1], [2]]⟩

/-! ## Helper lemmas -/

theorem npClip_le_hi (x lo hi : ℚ) : npClip x lo hi ≤ hi :=
  min_le_right _ _

theorem random_accelerate_uniform (v acc : ℚ × ℚ) (a b : ℚ) :
    random_accelerate v acc "uniform" a b = Except.ok (v.1 + a, v.2 + b) :=
  rfl

theorem random_accelerate_guassian (v acc : ℚ × ℚ) (a b : ℚ) :
    random_accelerate v acc "guassian" a b = Except.ok (v.1 + a, v.2 + b) :=
  rfl

theorem get_random_velocity_uniform (ms r n ang : ℚ) :
    get_random_velocity ms "uniform" r n ang =
      Except.ok (ms + (1 - ms) * r, ang) :=
  rfl

theorem get_random_velocity_guassian (ms r n ang : ℚ) :
    get_random_velocity ms "guassian" r n ang = Except.ok (|n|, ang) :=
  rfl

theorem getD_set_self (l : List ℚ) (i : Nat) (h : i < l.length) (v : ℚ) :
    (l.set i v).getD i 0 = v := by
  rw [List.getD_eq_getElem?_getD, List.getElem?_set_self h, Option.getD_some]

theorem getD_set_ne (l : List ℚ) (i j : Nat) (h : i ≠ j) (v : ℚ) :
    (l.set i v).getD j 0 = l.getD j 0 := by
  rw [List.getD_eq_getElem?_getD, List.getElem?_set_ne h,
    ← List.getD_eq_getElem?_getD]

theorem lo_le_npClip (x lo hi : ℚ) (h : lo ≤ hi) : lo ≤ npClip x lo hi :=
  le_min (le_max_right x lo) h

theorem movePointsLoop_cons (W H gap : ℚ) (jx jy : Nat → Int) (k i : Nat)
    (rest : List (Nat × Nat)) (xs ys : List ℚ) (flag : Bool) :
    movePointsLoop W H gap jx jy ((k, i) :: rest) (xs, ys, flag) =
    movePointsLoop W H gap jx jy rest
      (xs.set i (npClip (xs.getD i 0 + ((jx k : Int) : ℚ)) gap (W - gap)),
       ys.set i (npClip (ys.getD i 0 + ((jy k : Int) : ℚ)) gap (H - gap)),
       flag || decide (xs.getD i 0 + ((jx k : Int) : ℚ) > W) ||
         decide (xs.getD i 0 + ((jx k : Int) : ℚ) < 0) ||
         decide (ys.getD i 0 + ((jy k : Int) : ℚ) > H) ||
         decide (ys.getD i 0 + ((jy k : Int) : ℚ) < 0)) := rfl

theorem movePointsLoop_length (W H gap : ℚ) (jx jy : Nat → Int)
    (pairs : List (Nat × Nat)) :
    ∀ st : List ℚ × List ℚ × Bool,
      (movePointsLoop W H gap jx jy pairs st).1.length = st.1.length ∧
      (movePointsLoop W H gap jx jy pairs st).2.1.length = st.2.1.length := by
  induction pairs with
  | nil => intro st; exact ⟨rfl, rfl⟩
  | cons q rest ih =>
    rintro ⟨xs, ys, flag⟩
    obtain ⟨k, j⟩ := q
    simp only [movePointsLoop]
    refine ⟨(ih _).1.trans ?_, (ih _).2.trans ?_⟩ <;> simp

theorem movePointsLoop_untouched (W H gap : ℚ) (jx jy : Nat → Int)
    (pairs : List (Nat × Nat)) :
    ∀ (st : List ℚ × List ℚ × Bool) (i : Nat), i ∉ pairs.map Prod.snd →
      (movePointsLoop W H gap jx jy pairs st).1.getD i 0 = st.1.getD i 0 ∧
      (movePointsLoop W H gap jx jy pairs st).2.1.getD i 0 = st.2.1.getD i 0 := by
  induction pairs with
  | nil => intro st i _; exact ⟨rfl, rfl⟩
  | cons q rest ih =>
    rintro ⟨xs, ys, flag⟩ i hi
    obtain ⟨k, j⟩ := q
    simp only [List.map_cons, List.mem_cons, not_or] at hi
    rw [movePointsLoop_cons]
    constructor
    · rw [(ih _ i hi.2).1]
      exact getD_set_ne _ _ _ (Ne.symm hi.1) _
    · rw [(ih _ i hi.2).2]
      exact getD_set_ne _ _ _ (Ne.symm hi.1) _

set_option maxHeartbeats 2000000 in
theorem movePointsLoop_bounds (W H gap : ℚ) (jx jy : Nat → Int)
    (hW : gap ≤ W - gap) (hH : gap ≤ H - gap)
    (pairs : List (Nat × Nat)) :
    ∀ (xs ys : List ℚ) (flag : Bool),
      (∀ p ∈ pairs, p.2 < xs.length) → (∀ p ∈ pairs, p.2 < ys.length) →
      (pairs.map Prod.snd).Nodup →
      ∀ p ∈ pairs,
        gap ≤ (movePointsLoop W H gap jx jy pairs (xs, ys, flag)).1.getD p.2 0 ∧
        (movePointsLoop W H gap jx jy pairs (xs, ys, flag)).1.getD p.2 0 ≤ W - gap ∧
        gap ≤ (movePointsLoop W H gap jx jy pairs (xs, ys, flag)).2.1.getD p.2 0 ∧
        (movePointsLoop W H gap jx jy pairs (xs, ys, flag)).2.1.getD p.2 0 ≤ H - gap := by
  induction pairs with
  | nil => intro xs ys flag _ _ _ p hp; cases hp
  | cons q rest ih =>
    intro xs ys flag hx hy hnd p hp
    obtain ⟨k, j⟩ := q
    simp only [List.map_cons, List.nodup_cons] at hnd
    rcases List.mem_cons.mp hp with hpq | hpr
    · subst hpq
      rw [movePointsLoop_cons]
      have hjx : j < xs.length := hx (k, j) (List.mem_cons_self _ _)
      have hjy : j < ys.length := hy (k, j) (List.mem_cons_self _ _)
      have hunt := movePointsLoop_untouched W H gap jx jy rest
        (xs.set j (npClip (xs.getD j 0 + ((jx k : Int) : ℚ)) gap (W - gap)),
         ys.set j (npClip (ys.getD j 0 + ((jy k : Int) : ℚ)) gap (H - gap)),
         flag || decide (xs.getD j 0 + ((jx k : Int) : ℚ) > W) ||
           decide (xs.getD j 0 + ((jx k : Int) : ℚ) < 0) ||
           decide (ys.getD j 0 + ((jy k : Int) : ℚ) > H) ||
           decide (ys.getD j 0 + ((jy k : Int) : ℚ) < 0)) j hnd.1
      refine ⟨?_, ?_, ?_, ?_⟩
      · rw [hunt.1, getD_set_self _ _ hjx]
        exact lo_le_npClip _ _ _ hW
      · rw [hunt.1, getD_set_self _ _ hjx]
        exact npClip_le_hi _ _ _
      · rw [hunt.2, getD_set_self _ _ hjy]
        exact lo_le_npClip _ _ _ hH
      · rw [hunt.2, getD_set_self _ _ hjy]
        exact npClip_le_hi _ _ _
    · rw [movePointsLoop_cons]
      refine ih _ _ _ ?_ ?_ hnd.2 p hpr
      · intro r hr
        simpa using hx r (List.mem_cons_of_mem _ hr)
      · intro r hr
        simpa using hy r (List.mem_cons_of_mem _ hr)

/-! ## C1 -/

/-- C1, counterexample: it is not true that after every call to
`random_move_control_points` every control point lies in
`[boarderGap, dimension - boarderGap]`.  Concrete run on a 100 × 100 canvas
with `boarderGap = 15`: a single in-bounds control point `(85, 50)` (with
`85 = 100 - 15`), whole-line velocity `(speed, angle) = (1, 0)` (reachable: a
`get_random_velocity` result with `|normal| = 1` and realized angle draw `0`),
and `nMovePointRatio = 1/2`, so `int(1 * 0.5) = 0` points are chosen for
jitter.  The trigonometric parameters agree with the real functions at the
used angle (`cos 0 = 1`, `sin 0 = 0`), so the whole-line translation is
`(+1, +0)` and the unchosen point is moved, unclamped, to `x = 86 > 85`. -/
theorem C1_counterexample :
    (random_move_control_points [85] [50] 100 100 (1, 0) (1/2) 10 (5, 1/2)
      15 10 (fun _ => 1) (fun _ => 0)
      ⟨0, 0, [0], fun _ => 0, fun _ => 0, 0, 0, 0⟩).1 = [86] ∧
    ¬ ((86 : ℚ) ≤ 100 - 15) := by
  constructor
  · norm_num [random_move_control_points, movePointsLoop, pyInt,
      random_accelerate]
  · norm_num

/-- C1 (amended): after a call to `random_move_control_points`, every control
point *selected for jitter* satisfies
`boarderGap ≤ x ≤ imageWidth - boarderGap` and
`boarderGap ≤ y ≤ imageHeight - boarderGap` (provided the gap band is
nonempty); points not selected are translated by the whole-line displacement
without clamping and can leave this range.  Hypotheses: the shuffled index
list is a permutation of the valid indices (here: in-range and without
duplicates), and `boarderGap ≤ dimension - boarderGap`. -/
theorem C1_chosen_points_clamped (Xs Ys : List ℚ)
    (imageWidth imageHeight : ℚ) (lineVelocity : ℚ × ℚ)
    ( nMovePointRatio : ℚ) (maxPiontMove : Int)
    (maxLineAcceleration : ℚ × ℚ) (boarderGap maxInitSpeed : ℚ)
    (cosFn sinFn : ℚ → ℚ) (d : MoveDraws)
    (hpermX : ∀ j ∈ d.perm, j < Xs.length)
    (hpermY : ∀ j ∈ d.perm, j < Ys.length)
    (hnd : d.perm.Nodup)
    (hW : boarderGap ≤ imageWidth - boarderGap)
    (hH : boarderGap ≤ imageHeight - boarderGap) :
    ∀ i ∈ d.perm.take (pyInt ((Xs.length : ℚ) * nMovePointRatio)).toNat,
      boarderGap ≤ (random_move_control_points Xs Ys imageWidth imageHeight
        lineVelocity nMovePointRatio maxPiontMove maxLineAcceleration
        boarderGap maxInitSpeed cosFn sinFn d).1.getD i 0 ∧
      (random_move_control_points Xs Ys imageWidth imageHeight lineVelocity
        nMovePointRatio maxPiontMove maxLineAcceleration boarderGap
        maxInitSpeed cosFn sinFn d).1.getD i 0 ≤ imageWidth - boarderGap ∧
      boarderGap ≤ (random_move_control_points Xs Ys imageWidth imageHeight
        lineVelocity nMovePointRatio maxPiontMove maxLineAcceleration
        boarderGap maxInitSpeed cosFn sinFn d).2.1.getD i 0 ∧
      (random_move_control_points Xs Ys imageWidth imageHeight lineVelocity
        nMovePointRatio maxPiontMove maxLineAcceleration boarderGap
        maxInitSpeed cosFn sinFn d).2.1.getD i 0 ≤
        imageHeight - boarderGap := by
  intro i hi
  have hchosen := List.take_sublist
    (pyInt ((Xs.length : ℚ) * nMovePointRatio)).toNat d.perm
  have hiperm : i ∈ d.perm := hchosen.mem hi
  have himem : i ∈ (d.perm.take
      (pyInt ((Xs.length : ℚ) * nMovePointRatio)).toNat).enum.map
      Prod.snd := by
    rw [List.enum_map_snd]; exact hi
  obtain ⟨p, hpmem, hpi⟩ := List.mem_map.mp himem
  have hb := movePointsLoop_bounds imageWidth imageHeight boarderGap
    d.jitterX d.jitterY hW hH
    (d.perm.take (pyInt ((Xs.length : ℚ) * nMovePointRatio)).toNat).enum
    (Xs.map (fun v => v +
      ((pyInt (lineVelocity.1 * cosFn lineVelocity.2) : Int) : ℚ)))
    (Ys.map (fun v => v +
      ((pyInt (lineVelocity.1 * sinFn lineVelocity.2) : Int) : ℚ)))
    false
    (by
      intro r hr
      have : r.2 ∈ d.perm := by
        have hr2 : r.2 ∈ (d.perm.take
            (pyInt ((Xs.length : ℚ) * nMovePointRatio)).toNat).enum.map
            Prod.snd := List.mem_map_of_mem Prod.snd hr
        rw [List.enum_map_snd] at hr2
        exact hchosen.mem hr2
      simpa using hpermX r.2 this)
    (by
      intro r hr
      have : r.2 ∈ d.perm := by
        have hr2 : r.2 ∈ (d.perm.take
            (pyInt ((Xs.length : ℚ) * nMovePointRatio)).toNat).enum.map
            Prod.snd := List.mem_map_of_mem Prod.snd hr
        rw [List.enum_map_snd] at hr2
        exact hchosen.mem hr2
      simpa using hpermY r.2 this)
    (by
      rw [List.enum_map_snd]
      exact hchosen.nodup hnd)
    p hpmem
  rw [hpi] at hb
  exact hb

/-- Witness for `C1_chosen_points_clamped`: two control points on a
100 × 100 canvas with `boarderGap = 10`, `nMovePointRatio = 1` (both points
chosen) and jitter draws of +100 / -100; the clamp keeps the first chosen
point inside `[10, 90]` in both coordinates. -/
theorem C1_chosen_points_clamped_witness :
    (∀ j ∈ C1w_d.perm, j < ([0, 50] : List ℚ).length) ∧ C1w_d.perm.Nodup ∧
    ((10 : ℚ) ≤ 100 - 10) ∧
    (10 ≤ (random_move_control_points [0, 50] [0, 50] 100 100 (0, 0) 1 10
        (5, 1/2) 10 10 (fun _ => 0) (fun _ => 0) C1w_d).1.getD 0 0 ∧
     (random_move_control_points [0, 50] [0, 50] 100 100 (0, 0) 1 10
        (5, 1/2) 10 10 (fun _ => 0) (fun _ => 0) C1w_d).1.getD 0 0 ≤
        100 - 10 ∧
     10 ≤ (random_move_control_points [0, 50] [0, 50] 100 100 (0, 0) 1 10
        (5, 1/2) 10 10 (fun _ => 0) (fun _ => 0) C1w_d).2.1.getD 0 0 ∧
     (random_move_control_points [0, 50] [0, 50] 100 100 (0, 0) 1 10
        (5, 1/2) 10 10 (fun _ => 0) (fun _ => 0) C1w_d).2.1.getD 0 0 ≤
        100 - 10) :=
  ⟨by decide, by decide, by norm_num,
   C1_chosen_points_clamped [0, 50] [0, 50] 100 100 (0, 0) 1 10 (5, 1/2)
     10 10 (fun _ => 0) (fun _ => 0) C1w_d (by decide) (by decide)
     (by decide) (by norm_num) (by norm_num) 0
     (by
       have h3 : pyInt ((([0, 50] : List ℚ).length : ℚ) * 1) = 2 := by
         norm_num [pyInt]
       rw [h3]
       decide)⟩

/-! ## C2 -/

/-- C2, counterexample: the whole-line velocity speed is not `≥ 0` at all
times.  Concrete animation step: input line velocity `(0, 0)` (speed 0 is in
the support of `|N(0, maxInitSpeed/2)|`), gaussian acceleration draw `-1` for
the speed (the normal distribution has full support), one control point and
`nMovePointRatio = 1/2` so no point is chosen and no velocity reset happens:
the returned whole-line velocity has speed `-1 < 0`. -/
theorem C2_counterexample :
    (random_move_control_points [50] [50] 100 100 (0, 0) (1/2) 10 (5, 1/2)
      15 10 (fun _ => 0) (fun _ => 0)
      ⟨-1, 0, [0], fun _ => 0, fun _ => 0, 0, 0, 0⟩).2.2.1 = -1 ∧
    ¬ (0 ≤ (-1 : ℚ)) := by
  constructor
  · norm_num [random_move_control_points, movePointsLoop, pyInt,
      random_accelerate_guassian, Except.toOption, Option.getD]
  · norm_num

/-- C2 (amended): the speed returned by `get_random_velocity` is `≥ 0` for
both supported distributions (given `0 ≤ max_speed` and a raw uniform draw in
`[0, 1]`); the per-step perturbation `random_accelerate`, however, applies no
clamping and can drive the whole-line speed negative during animation (see
the counterexample). -/
theorem C2_sampled_speed_nonneg (max_speed rUnif normalDraw angleDraw : ℚ)
    (hms : 0 ≤ max_speed) (hr0 : 0 ≤ rUnif) (hr1 : rUnif ≤ 1) :
    ∀ (dist : String) (v : ℚ × ℚ),
      get_random_velocity max_speed dist rUnif normalDraw angleDraw =
        Except.ok v → 0 ≤ v.1 := by
  intro dist v h
  by_cases h1 : dist = "uniform"
  · rw [h1, get_random_velocity_uniform, Except.ok.injEq] at h
    rw [← h]
    show 0 ≤ max_speed + (1 - max_speed) * rUnif
    nlinarith [mul_nonneg hms (by linarith : (0 : ℚ) ≤ 1 - rUnif)]
  · by_cases h2 : dist = "guassian"
    · rw [h2, get_random_velocity_guassian, Except.ok.injEq] at h
      rw [← h]
      exact abs_nonneg normalDraw
    · unfold get_random_velocity at h
      rw [if_neg h1, if_neg h2] at h
      simp at h

/-- Witness for `C2_sampled_speed_nonneg`: the `'guassian'` branch with
realized normal draw `-3` returns speed `|-3| = 3 ≥ 0`. -/
theorem C2_sampled_speed_nonneg_witness :
    (0 ≤ (10 : ℚ)) ∧ (0 ≤ (0 : ℚ)) ∧ ((0 : ℚ) ≤ 1) ∧
    get_random_velocity 10 "guassian" 0 (-3) 0 = Except.ok (3, 0) ∧
    0 ≤ ((3 : ℚ), (0 : ℚ)).1 :=
  ⟨by norm_num, le_refl 0, by norm_num,
   by rw [get_random_velocity_guassian]; norm_num,
   C2_sampled_speed_nonneg 10 0 (-3) 0 (by norm_num) (le_refl 0)
     (by norm_num) "guassian" (3, 0)
     (by rw [get_random_velocity_guassian]; norm_num)⟩

/-! ## C5 -/

/-- C5: the `'uniform'` branch of `get_random_velocity` does *not* return
`r * max_speed` for the raw draw `r ∈ [0, 1]`.  The source calls
`np.random.uniform(max_speed)` with one positional argument, which numpy
reads as `low = max_speed, high = 1.0`, so the returned speed is
`max_speed + (1 - max_speed) * r`.  At `max_speed = 10` and `r = 0` the code
yields speed `10`, while the claimed `r * max_speed` is `0`.  (Line 221 of
the source, `np.random.uniform(0, maxHeadSpeed)`, shows the intended
two-argument idiom.) -/
theorem C5_uniform_low_is_max_speed :
    get_random_velocity 10 "uniform" 0 0 0 = Except.ok (10, 0) ∧
    (10 : ℚ) ≠ 0 * 10 := by
  constructor
  · rw [get_random_velocity_uniform]; norm_num
  · norm_num

/-! ## C7 -/

/-- C7: for every `video_len < 1`, `get_video_masks_by_moving_random_stroke`
fails on the leading `assert(video_len >= 1)` before creating any stroke or
canvas, and returns no partial sequence (the embedded result is the bare
error, produced before the initial frame is even constructed). -/
theorem C7_video_len_assert {Canvas : Type} (B : DrawBackend Canvas)
    (video_len : Int) (imageWidth imageHeight : ℚ) (nStroke : Nat)
    (nVertexBound : Int × Int) (maxHeadSpeed : ℚ)
    (maxHeadAcceleration : ℚ × ℚ) (brushWidthBound : Int × Int)
    (boarderGap : ℚ) ( nMovePointRatio : ℚ) (maxPiontMove : Int)
    (maxLineAcceleration : ℚ × ℚ) (maxInitSpeed : ℚ)
    (cosFn sinFn : ℚ → ℚ) (d : VideoDraws) (h : video_len < 1) :
    get_video_masks_by_moving_random_stroke B video_len imageWidth
      imageHeight nStroke nVertexBound maxHeadSpeed maxHeadAcceleration
      brushWidthBound boarderGap nMovePointRatio maxPiontMove
      maxLineAcceleration maxInitSpeed cosFn sinFn d =
      Except.error "AssertionError: video_len >= 1" := by
  unfold get_video_masks_by_moving_random_stroke
  rw [if_neg (by omega)]

/-- Witness for `C7_video_len_assert` at `video_len = 0` with the source's
default parameters. -/
theorem C7_video_len_assert_witness :
    ((0 : Int) < 1) ∧
    get_video_masks_by_moving_random_stroke unitBackend 0 424 240 3 (5, 20)
      15 (15, 157/50) (30, 50) 50 (1/2) 10 (5, 1/2) 10 (fun _ => 0)
      (fun _ => 0) trivialVideoDraws =
      Except.error "AssertionError: video_len >= 1" :=
  ⟨by norm_num,
   C7_video_len_assert unitBackend 0 424 240 3 (5, 20) 15 (15, 157/50)
     (30, 50) 50 (1/2) 10 (5, 1/2) 10 (fun _ => 0) (fun _ => 0)
     trivialVideoDraws (by norm_num)⟩

/-! ## C8 -/

/-- C8, counterexample: the two distribution names the code supports are
`'uniform'` and `'guassian'` (the source's spelling), not `'uniform'` and
`'gaussian'`: passing the correctly-spelled `"gaussian"` to either
`random_accelerate` or `get_random_velocity` raises
`NotImplementedError` even though the claim lists it as supported. -/
theorem C8_gaussian_spelling_counterexample :
    random_accelerate (0, 0) (1, 1) "gaussian" 0 0 =
      Except.error "Distribution type gaussian is not supported." ∧
    get_random_velocity 1 "gaussian" 0 0 0 =
      Except.error "Distribution type gaussian is not supported." :=
  ⟨rfl, rfl⟩

/-- C8 (amended): `random_accelerate` and `get_random_velocity` raise the
unsupported-distribution error iff the distribution argument is not one of
the two names the code accepts, `"uniform"` and `"guassian"` (sic), and
succeed otherwise; the perturbation applies no clamping: it returns exactly
`(speed + draw1, angle + draw2)` in both supported branches. -/
theorem C8_supported_distributions (v acc : ℚ × ℚ) (dist : String)
    (a b ms r n ang : ℚ) :
    ((random_accelerate v acc dist a b).isOk = true ↔
      (dist = "uniform" ∨ dist = "guassian")) ∧
    ((get_random_velocity ms dist r n ang).isOk = true ↔
      (dist = "uniform" ∨ dist = "guassian")) ∧
    random_accelerate v acc "uniform" a b = Except.ok (v.1 + a, v.2 + b) ∧
    random_accelerate v acc "guassian" a b = Except.ok (v.1 + a, v.2 + b) := by
  refine ⟨?_, ?_, rfl, rfl⟩
  · unfold random_accelerate
    split_ifs with h1 h2
    · simp [Except.isOk, Except.toBool, h1]
    · simp [Except.isOk, Except.toBool, h2]
    · simp [Except.isOk, Except.toBool, h1, h2]
  · unfold get_random_velocity
    split_ifs with h1 h2
    · simp [Except.isOk, Except.toBool, h1]
    · simp [Except.isOk, Except.toBool, h2]
    · simp [Except.isOk, Except.toBool, h1, h2]

/-! ## C9 -/

/-- C9: `get_random_walk_mask(imageWidth=10, imageHeight=10, length=0)` does
not return a fully-zero mask: with `length = 0` the walk records no cells,
`x_list` and `y_list` are empty, `np.array([])` has dtype `float64`, and the
fancy-index assignment raises `IndexError` (numpy rejects non-integer index
arrays, empty or not).  The embedded run at concrete draws reproduces the
error. -/
theorem C9_length_zero_raises :
    get_random_walk_mask 10 10 (some 0) ⟨0, 0, fun _ => 0⟩ =
      Except.error
        "IndexError: arrays used as indices must be of integer (or boolean) type" :=
  rfl

/-! ## C3 -/

theorem videoFrameStep_mask_count {Canvas : Type} (B : DrawBackend Canvas)
    (imageWidth imageHeight : ℚ) ( nMovePointRatio : ℚ) (maxPiontMove : Int)
    (maxLineAcceleration : ℚ × ℚ) (boarderGap maxInitSpeed : ℚ)
    (cosFn sinFn : ℚ → ℚ) (d : VideoDraws) (l : List Nat) :
    ∀ st : List Canvas × List StrokeState,
      ((l.foldl (videoFrameStep B imageWidth imageHeight nMovePointRatio
        maxPiontMove maxLineAcceleration boarderGap maxInitSpeed cosFn sinFn
        d) st).1).length = st.1.length + l.length := by
  induction l with
  | nil => intro st; simp
  | cons t rest ih =>
    intro st
    rw [List.foldl_cons, ih]
    simp [videoFrameStep]
    omega

theorem get_video_masks_ok {Canvas : Type} (B : DrawBackend Canvas)
    (video_len : Int) (imageWidth imageHeight : ℚ) (nStroke : Nat)
    (nVertexBound : Int × Int) (maxHeadSpeed : ℚ)
    (maxHeadAcceleration : ℚ × ℚ) (brushWidthBound : Int × Int)
    (boarderGap : ℚ) ( nMovePointRatio : ℚ) (maxPiontMove : Int)
    (maxLineAcceleration : ℚ × ℚ) (maxInitSpeed : ℚ)
    (cosFn sinFn : ℚ → ℚ) (d : VideoDraws) (h : video_len ≥ 1) :
    get_video_masks_by_moving_random_stroke B video_len imageWidth
      imageHeight nStroke nVertexBound maxHeadSpeed maxHeadAcceleration
      brushWidthBound boarderGap nMovePointRatio maxPiontMove
      maxLineAcceleration maxInitSpeed cosFn sinFn d =
    Except.ok (((List.range (video_len - 1).toNat).foldl
      (videoFrameStep B imageWidth imageHeight nMovePointRatio maxPiontMove
        maxLineAcceleration boarderGap maxInitSpeed cosFn sinFn d)
      ([(initialFrame B imageWidth imageHeight nStroke nVertexBound
          maxHeadSpeed maxHeadAcceleration boarderGap maxInitSpeed cosFn
          sinFn d).1],
       (initialFrame B imageWidth imageHeight nStroke nVertexBound
          maxHeadSpeed maxHeadAcceleration boarderGap maxInitSpeed cosFn
          sinFn d).2)).1) := by
  unfold get_video_masks_by_moving_random_stroke
  rw [if_pos h]

/-- C3: for every `video_len ≥ 1` and every sequence of realized random
draws, `get_video_masks_by_moving_random_stroke` succeeds and returns an
ordered mask list of length exactly `video_len`; for `video_len = 1` the
returned sequence is the singleton consisting of the frame-0 canvas, i.e. no
animation step (`random_move_control_points`) is performed. -/
theorem C3_mask_sequence_length {Canvas : Type} (B : DrawBackend Canvas)
    (video_len : Int) (imageWidth imageHeight : ℚ) (nStroke : Nat)
    (nVertexBound : Int × Int) (maxHeadSpeed : ℚ)
    (maxHeadAcceleration : ℚ × ℚ) (brushWidthBound : Int × Int)
    (boarderGap : ℚ) ( nMovePointRatio : ℚ) (maxPiontMove : Int)
    (maxLineAcceleration : ℚ × ℚ) (maxInitSpeed : ℚ)
    (cosFn sinFn : ℚ → ℚ) (d : VideoDraws) (h : 1 ≤ video_len) :
    ∃ ms : List Canvas,
      get_video_masks_by_moving_random_stroke B video_len imageWidth
        imageHeight nStroke nVertexBound maxHeadSpeed maxHeadAcceleration
        brushWidthBound boarderGap nMovePointRatio maxPiontMove
        maxLineAcceleration maxInitSpeed cosFn sinFn d = Except.ok ms ∧
      ms.length = video_len.toNat ∧
      (video_len = 1 →
        ms = [(initialFrame B imageWidth imageHeight nStroke nVertexBound
          maxHeadSpeed maxHeadAcceleration boarderGap maxInitSpeed cosFn
          sinFn d).1]) := by
  refine ⟨_, get_video_masks_ok B video_len imageWidth imageHeight nStroke
    nVertexBound maxHeadSpeed maxHeadAcceleration brushWidthBound boarderGap
    nMovePointRatio maxPiontMove maxLineAcceleration maxInitSpeed cosFn sinFn
    d h, ?_, ?_⟩
  · rw [videoFrameStep_mask_count]
    simp only [List.length_singleton, List.length_range]
    omega
  · intro h1
    subst h1
    norm_num

/-- Witness for `C3_mask_sequence_length` at `video_len = 1` with the
source's default parameters, the unit drawing backend and trivial realized
draws. -/
theorem C3_mask_sequence_length_witness :
    ∃ ms : List Unit,
      get_video_masks_by_moving_random_stroke unitBackend 1 424 240 3 (5, 20)
        15 (15, 157/50) (30, 50) 50 (1/2) 10 (5, 1/2) 10 (fun _ => 0)
        (fun _ => 0) trivialVideoDraws = Except.ok ms ∧
      ms.length = (1 : Int).toNat ∧
      ((1 : Int) = 1 →
        ms = [(initialFrame unitBackend 424 240 3 (5, 20) 15 (15, 157/50)
          50 10 (fun _ => 0) (fun _ => 0) trivialVideoDraws).1]) :=
  C3_mask_sequence_length unitBackend 1 424 240 3 (5, 20) 15 (15, 157/50)
    (30, 50) 50 (1/2) 10 (5, 1/2) 10 (fun _ => 0) (fun _ => 0)
    trivialVideoDraws (by norm_num)

/-! ## C4 -/

/-- C4, counterexample: `get_masked_ratio` of an all-zero canvas is `1`, not
`0` as the claim states (the claim's own defining formula
`count(pixels == 0) / totalPixelCount` forces the value 1 there: with the
module's convention 0 = masked, an all-zero canvas is fully masked). -/
theorem C4_counterexample :
    get_masked_ratio ⟨2, 2, fun _ _ => 0⟩ = 1 ∧ (1 : ℚ) ≠ 0 := by
  constructor
  · have h4 : histogram0 ⟨2, 2, fun _ _ => 0⟩ = 4 := by decide
    unfold get_masked_ratio
    rw [h4]
    norm_num
  · norm_num

/-- C4 (amended): `get_masked_ratio(mask)` equals
`count(pixels == 0) / totalPixelCount`, lies in `[0, 1]` for every mask,
equals `1` for an all-zero (fully masked) nonempty canvas, and equals `0`
for a fully filled canvas. -/
theorem C4_ratio_bounds (m : MaskImage) :
    get_masked_ratio m =
      (histogram0 m : ℚ) / ((m.width * m.height : Nat) : ℚ) ∧
    0 ≤ get_masked_ratio m ∧ get_masked_ratio m ≤ 1 ∧
    ((∀ y x, y < m.height → x < m.width → m.px y x = 0) →
      0 < m.width * m.height → get_masked_ratio m = 1) ∧
    ((∀ y x, y < m.height → x < m.width → m.px y x ≠ 0) →
      get_masked_ratio m = 0) := by
  have hle : histogram0 m ≤ m.height * m.width := by
    unfold histogram0
    calc ((List.range m.height).map
        (fun y => ((List.range m.width).filter
          (fun x => m.px y x = 0)).length)).sum
        ≤ ((List.range m.height).map
            (fun y => ((List.range m.width).filter
              (fun x => m.px y x = 0)).length)).length * m.width := by
          have := List.sum_le_card_nsmul ((List.range m.height).map
            (fun y => ((List.range m.width).filter
              (fun x => m.px y x = 0)).length)) m.width ?_
          · simpa [smul_eq_mul] using this
          · intro x hx
            obtain ⟨y, _, rfl⟩ := List.mem_map.mp hx
            calc ((List.range m.width).filter (fun x => m.px y x = 0)).length
                ≤ (List.range m.width).length :=
                  List.length_filter_le _ _
              _ = m.width := List.length_range m.width
      _ = m.height * m.width := by
          rw [List.length_map, List.length_range]
  refine ⟨rfl, ?_, ?_, ?_, ?_⟩
  · unfold get_masked_ratio
    positivity
  · unfold get_masked_ratio
    rcases Nat.eq_zero_or_pos (m.width * m.height) with h0 | hpos
    · rw [h0]
      norm_num
    · rw [div_le_one (by positivity)]
      have hle' : histogram0 m ≤ m.width * m.height := by
        rw [mul_comm]; exact hle
      exact_mod_cast hle'
  · intro hall hpos
    have hfull : histogram0 m = m.height * m.width := by
      unfold histogram0
      have hrow : ∀ y ∈ List.range m.height,
          ((List.range m.width).filter (fun x => m.px y x = 0)).length =
            m.width := by
        intro y hy
        rw [List.filter_eq_self.mpr, List.length_range]
        intro x hx
        simpa using hall y x (List.mem_range.mp hy) (List.mem_range.mp hx)
      rw [List.map_congr_left hrow]
      simp [List.map_const', mul_comm]
    unfold get_masked_ratio
    rw [hfull]
    rw [div_eq_one_iff_eq (by positivity)]
    push_cast
    ring
  · intro hnone
    have hzero : histogram0 m = 0 := by
      unfold histogram0
      have hrow : ∀ y ∈ List.range m.height,
          ((List.range m.width).filter (fun x => m.px y x = 0)).length =
            0 := by
        intro y hy
        rw [List.length_eq_zero]
        rw [List.filter_eq_nil_iff]
        intro x hx
        simpa using hnone y x (List.mem_range.mp hy) (List.mem_range.mp hx)
      rw [List.map_congr_left hrow]
      simp
    unfold get_masked_ratio
    rw [hzero]
    norm_num

/-- Witness for `C4_ratio_bounds` at a concrete all-zero 2 × 2 canvas. -/
theorem C4_ratio_bounds_witness :
    (0 < 2 * 2) ∧ get_masked_ratio ⟨2, 2, fun _ _ => 0⟩ = 1 :=
  ⟨by norm_num,
   (C4_ratio_bounds ⟨2, 2, fun _ _ => 0⟩).2.2.2.1 (fun _ _ _ _ => rfl)
     (by norm_num)⟩

/-! ## C6 -/

/-- C6, counterexample: `Stack` on two single-channel 4 × 4 frames yields an
array of shape `4 × 4 × 2 × 1` — height × width × *time* × channel, with the
time axis inserted at position 2 by `np.stack(..., axis=2)` — not the claimed
`4 × 4 × 1 × 2` (channel before time). -/
theorem C6_counterexample :
    (Stack_call false [mkL4 (fun _ _ => 0), mkL4 (fun _ _ => 0)]).map shape4 =
      Except.ok (4, 4, 2, 1) ∧
    ((4, 4, 2, 1) : Nat × Nat × Nat × Nat) ≠ (4, 4, 1, 2) := by
  constructor
  · rfl
  · decide

/-- C6 (amended): `Stack` on two single-channel 4 × 4 frames yields shape
`4 × 4 × 2 × 1` (height × width × time × channel, time at axis 2); and on two
RGB 4 × 4 frames, `roll = True` yields exactly the `roll = False` array with
the channel order (innermost axis) reversed. -/
theorem C6_stack_shape_and_roll (p q : Nat → Nat → Nat)
    (f g : Nat → Nat → List Nat) :
    (Stack_call false [mkL4 p, mkL4 q]).map shape4 = Except.ok (4, 4, 2, 1) ∧
    Stack_call true [mkRGB4 f, mkRGB4 g] =
      (Stack_call false [mkRGB4 f, mkRGB4 g]).map
        (fun a => a.map (fun l2 => l2.map (fun l3 => l3.map List.reverse))) := by
  constructor
  · rfl
  · rfl

/-! ## C10 -/

theorem NpStore.read_write_ne (s : NpStore) (r r' : Nat) (v : List ℚ)
    (h : r' ≠ r) : (s.write r v).read r' = s.read r' := by
  unfold NpStore.read NpStore.write
  simp [List.getD_eq_getElem?_getD, List.getElem?_set_ne (Ne.symm h)]

theorem NpStore.read_append_one (l : List (List ℚ)) (v : List ℚ) (r : Nat)
    (h : r < l.length) :
    (NpStore.mk (l ++ [v])).read r = (NpStore.mk l).read r := by
  unfold NpStore.read
  exact List.getD_append _ _ _ _ h

theorem movePointsLoopStore_cons (W H gap : ℚ) (jx jy : Nat → Int)
    (newXsRef newYsRef k i : Nat) (rest : List (Nat × Nat)) (s : NpStore)
    (flag : Bool) :
    movePointsLoopStore W H gap jx jy newXsRef newYsRef ((k, i) :: rest)
      (s, flag) =
    movePointsLoopStore W H gap jx jy newXsRef newYsRef rest
      ((s.write newXsRef ((s.read newXsRef).set i
          (npClip ((s.read newXsRef).getD i 0 + ((jx k : Int) : ℚ)) gap
            (W - gap)))).write newYsRef ((s.read newYsRef).set i
          (npClip ((s.read newYsRef).getD i 0 + ((jy k : Int) : ℚ)) gap
            (H - gap))),
       flag ||
         decide ((s.read newXsRef).getD i 0 + ((jx k : Int) : ℚ) > W) ||
         decide ((s.read newXsRef).getD i 0 + ((jx k : Int) : ℚ) < 0) ||
         decide ((s.read newYsRef).getD i 0 + ((jy k : Int) : ℚ) > H) ||
         decide ((s.read newYsRef).getD i 0 + ((jy k : Int) : ℚ) < 0)) := rfl

theorem movePointsLoopStore_read_other (W H gap : ℚ) (jx jy : Nat → Int)
    (newXsRef newYsRef : Nat) (pairs : List (Nat × Nat)) :
    ∀ (st : NpStore × Bool) (r : Nat), r ≠ newXsRef → r ≠ newYsRef →
      (movePointsLoopStore W H gap jx jy newXsRef newYsRef pairs
        st).1.read r = st.1.read r := by
  induction pairs with
  | nil => intro st r _ _; rfl
  | cons q rest ih =>
    rintro ⟨s, flag⟩ r h1 h2
    obtain ⟨k, i⟩ := q
    rw [movePointsLoopStore_cons]
    rw [ih _ r h1 h2]
    rw [NpStore.read_write_ne _ _ _ _ h2, NpStore.read_write_ne _ _ _ _ h1]

/-- C10: `random_move_control_points` never mutates its input arrays: in the
store-level embedding, the returned `new_Xs` / `new_Ys` live behind freshly
allocated references (distinct from the callers' references and from each
other), and after the call the arrays behind the callers' references hold
exactly their pre-call values. -/
theorem C10_no_input_mutation (s : NpStore) (xsRef ysRef : Nat)
    (imageWidth imageHeight : ℚ) (lineVelocity : ℚ × ℚ)
    ( nMovePointRatio : ℚ) (maxPiontMove : Int)
    (maxLineAcceleration : ℚ × ℚ) (boarderGap maxInitSpeed : ℚ)
    (cosFn sinFn : ℚ → ℚ) (d : MoveDraws)
    (hx : xsRef < s.arrays.length) (hy : ysRef < s.arrays.length) :
    (random_move_control_points_store s xsRef ysRef imageWidth imageHeight
      lineVelocity nMovePointRatio maxPiontMove maxLineAcceleration
      boarderGap maxInitSpeed cosFn sinFn d).1.read xsRef = s.read xsRef ∧
    (random_move_control_points_store s xsRef ysRef imageWidth imageHeight
      lineVelocity nMovePointRatio maxPiontMove maxLineAcceleration
      boarderGap maxInitSpeed cosFn sinFn d).1.read ysRef = s.read ysRef ∧
    (random_move_control_points_store s xsRef ysRef imageWidth imageHeight
      lineVelocity nMovePointRatio maxPiontMove maxLineAcceleration
      boarderGap maxInitSpeed cosFn sinFn d).2.1 ≠ xsRef ∧
    (random_move_control_points_store s xsRef ysRef imageWidth imageHeight
      lineVelocity nMovePointRatio maxPiontMove maxLineAcceleration
      boarderGap maxInitSpeed cosFn sinFn d).2.1 ≠ ysRef ∧
    (random_move_control_points_store s xsRef ysRef imageWidth imageHeight
      lineVelocity nMovePointRatio maxPiontMove maxLineAcceleration
      boarderGap maxInitSpeed cosFn sinFn d).2.2.1 ≠ xsRef ∧
    (random_move_control_points_store s xsRef ysRef imageWidth imageHeight
      lineVelocity nMovePointRatio maxPiontMove maxLineAcceleration
      boarderGap maxInitSpeed cosFn sinFn d).2.2.1 ≠ ysRef ∧
    (random_move_control_points_store s xsRef ysRef imageWidth imageHeight
      lineVelocity nMovePointRatio maxPiontMove maxLineAcceleration
      boarderGap maxInitSpeed cosFn sinFn d).2.1 ≠
      (random_move_control_points_store s xsRef ysRef imageWidth imageHeight
        lineVelocity nMovePointRatio maxPiontMove maxLineAcceleration
        boarderGap maxInitSpeed cosFn sinFn d).2.2.1 := by
  have hxA : xsRef ≠ s.arrays.length := Nat.ne_of_lt hx
  have hxB : xsRef ≠ s.arrays.length + 1 := by omega
  have hyA : ysRef ≠ s.arrays.length := Nat.ne_of_lt hy
  have hyB : ysRef ≠ s.arrays.length + 1 := by omega
  refine ⟨?_, ?_, ?_, ?_, ?_, ?_, ?_⟩
  · simp only [random_move_control_points_store, NpStore.alloc]
    rw [movePointsLoopStore_read_other _ _ _ _ _ _ _ _ _ _ hxA (by
      simpa using hxB)]
    rw [NpStore.read_write_ne _ _ _ _ (by simpa using hxB),
      NpStore.read_write_ne _ _ _ _ hxA]
    rw [NpStore.read_append_one _ _ _ (by simpa using Nat.lt_succ_of_lt hx)]
    rw [NpStore.read_append_one _ _ _ hx]
  · simp only [random_move_control_points_store, NpStore.alloc]
    rw [movePointsLoopStore_read_other _ _ _ _ _ _ _ _ _ _ hyA (by
      simpa using hyB)]
    rw [NpStore.read_write_ne _ _ _ _ (by simpa using hyB),
      NpStore.read_write_ne _ _ _ _ hyA]
    rw [NpStore.read_append_one _ _ _ (by simpa using Nat.lt_succ_of_lt hy)]
    rw [NpStore.read_append_one _ _ _ hy]
  · simp only [random_move_control_points_store, NpStore.alloc]
    omega
  · simp only [random_move_control_points_store, NpStore.alloc]
    omega
  · simp only [random_move_control_points_store, NpStore.alloc]
    simp only [List.length_append, List.length_singleton]
    omega
  · simp only [random_move_control_points_store, NpStore.alloc]
    simp only [List.length_append, List.length_singleton]
    omega
  · simp only [random_move_control_points_store, NpStore.alloc]
    simp only [List.length_append, List.length_singleton]
    omega

/-- Witness for `C10_no_input_mutation` at the concrete store `C10w_s`,
with `xsRef = 0`, `ysRef = 1` and trivial animator draws. -/
theorem C10_no_input_mutation_witness :
    (0 < C10w_s.arrays.length ∧ 1 < C10w_s.arrays.length) ∧
    ((random_move_control_points_store C10w_s 0 1 100 100 (0, 0) (1/2) 10
        (5, 1/2) 15 10 (fun _ => 0) (fun _ => 0) trivialMoveDraws).1.read 0 =
        C10w_s.read 0 ∧
     (random_move_control_points_store C10w_s 0 1 100 100 (0, 0) (1/2) 10
        (5, 1/2) 15 10 (fun _ => 0) (fun _ => 0) trivialMoveDraws).1.read 1 =
        C10w_s.read 1 ∧
     (random_move_control_points_store C10w_s 0 1 100 100 (0, 0) (1/2) 10
        (5, 1/2) 15 10 (fun _ => 0) (fun _ => 0) trivialMoveDraws).2.1 ≠ 0 ∧
     (random_move_control_points_store C10w_s 0 1 100 100 (0, 0) (1/2) 10
        (5, 1/2) 15 10 (fun _ => 0) (fun _ => 0) trivialMoveDraws).2.1 ≠ 1 ∧
     (random_move_control_points_store C10w_s 0 1 100 100 (0, 0) (1/2) 10
        (5, 1/2) 15 10 (fun _ => 0) (fun _ => 0) trivialMoveDraws).2.2.1 ≠
        0 ∧
     (random_move_control_points_store C10w_s 0 1 100 100 (0, 0) (1/2) 10
        (5, 1/2) 15 10 (fun _ => 0) (fun _ => 0) trivialMoveDraws).2.2.1 ≠
        1 ∧
     (random_move_control_points_store C10w_s 0 1 100 100 (0, 0) (1/2) 10
        (5, 1/2) 15 10 (fun _ => 0) (fun _ => 0) trivialMoveDraws).2.1 ≠
       (random_move_control_points_store C10w_s 0 1 100 100 (0, 0) (1/2) 10
        (5, 1/2) 15 10 (fun _ => 0) (fun _ => 0) trivialMoveDraws).2.2.1) :=
  ⟨⟨by decide, by decide⟩,
   C10_no_input_mutation C10w_s 0 1 100 100 (0, 0) (1/2) 10 (5, 1/2) 15 10
     (fun _ => 0) (fun _ => 0) trivialMoveDraws (by decide) (by decide)⟩

end Transform
